import Mathlib

/-!
Snowflake identifier generator (service/id_service/server).

A shallow embedding of `snowflake_id_generator.go`, `config.go` and
`id_generator_manager.go` (the dispatch of `Generate` and the store of the clock
maintenance routine).

* Go `uint64` values are natural numbers; every operation that can overflow is
  reduced modulo `2 ^ 64` explicitly.
* Go `int` values (bit widths, offsets, configuration integers) are integers.
* The wall clock `uint64(time.Now().UnixMilli())` is an input of each operation.
* `fmt.Sprintf("%d", v)` of the Go library is the decimal text of `v`.
* The two mutexes are not part of the state: the embedding is of one caller at
  a time. The only place where another goroutine is visible is the busy-wait
  of `Generate`, whose environment is the list of stores the clock maintenance
  routine performs while the timestamp lock is released.
-/

namespace IdServer

/-- The errors the package returns, one constructor per `fmt.Errorf` site. -/
inductive GoError where
  /-- "illegal number of bits: %d, %d, %d" -/
  | illegalBits (timestampBitNum dataCenterBitNum serviceIdBitNum : Int)
  /-- "center clock is moving backwards" -/
  | clockBackwards
  /-- "center clock failure" -/
  | clockFailure
  /-- "could not load config" -/
  | configNotLoaded
  /-- "config not include %s" -/
  | configNotInclude (name : String)
  /-- "illegal type: %v" -/
  | illegalType
  /-- "no such generating algorithm" -/
  | noSuchAlgorithm
  deriving DecidableEq, Repr

/-- How a call ends: it returns a value, returns an error, stops with a Go
run-time fault, or spins forever in a loop. -/
inductive Outcome (α : Type) where
  | ok (val : α)
  | error (err : GoError)
  | panicked
  | spinning
  deriving DecidableEq, Repr

/-- Number of values of a Go `uint64`. -/
def uint64Size : Nat := 2 ^ 64

/-- Start time of system:
`uint64(time.Date(2024, time.July, 27, 0, 0, 0, 0, time.UTC).UnixMilli())`. -/
def systemStartTime : Nat := 1722038400000

/-- Go `x << n` for a `uint64` value `x` and an `int` count `n`: a negative
count is a run-time fault (`none`), a count of 64 or more gives 0. -/
def shl64 (x : Nat) (n : Int) : Option Nat :=
  if n < 0 then none
  else if 64 ≤ n then some 0
  else some ((x * 2 ^ n.toNat) % uint64Size)

/-- Go `a - b` on `uint64`. -/
def sub64 (a b : Nat) : Nat :=
  (a % uint64Size + (uint64Size - b % uint64Size)) % uint64Size

/-- SnowflakeConfiguration stores configuration of snowflake algorithm. -/
structure SnowflakeConfiguration where
  maximumTimestamp : Nat
  maximumDataCenterId : Nat
  maximumServiceId : Nat
  maximumId : Nat
  timestampOffset : Int
  dataCenterIdOffset : Int
  serviceIdOffset : Int
  idOffset : Int
  deriving DecidableEq, Repr

/-- SnowflakeIdGenerator generates ids based on the snowflake algorithm
(fields `idLock` and `timestampLock` are left out, see the header). -/
structure SnowflakeIdGenerator where
  config : SnowflakeConfiguration
  curTimestamp : Nat
  curId : Nat
  dataCenterId : Nat
  serviceId : Nat
  deriving DecidableEq, Repr

/-- Returns whether `bitNum` is in range [0, 64]. -/
def checkBitNum (bitNum : Int) : Bool :=
  decide (0 ≤ bitNum) && decide (bitNum ≤ 64)

/-- NewSnowflakeIdGenerator creates a new SnowflakeIdGenerator. `wallClock` is
the value `uint64(time.Now().UnixMilli())` read at line 74. The four
`uint64(1 << n)` of lines 64 to 67 are shifts of a `uint64` one. -/
def NewSnowflakeIdGenerator (wallClock : Nat)
    (timestampBitNum dataCenterBitNum serviceIdBitNum : Int) :
    Outcome SnowflakeIdGenerator :=
  if !checkBitNum timestampBitNum ||
      !checkBitNum dataCenterBitNum ||
      !checkBitNum serviceIdBitNum then
    .error (.illegalBits timestampBitNum dataCenterBitNum serviceIdBitNum)
  else
    let idOffset := 64 - timestampBitNum - dataCenterBitNum - serviceIdBitNum
    let serviceIdOffset := idOffset + serviceIdBitNum
    let dataCenterIdOffset := serviceIdOffset + dataCenterBitNum
    let timestampOffset := dataCenterIdOffset + dataCenterBitNum
    match shl64 1 timestampBitNum with
    | none => .panicked
    | some maximumTimestamp =>
      match shl64 1 dataCenterBitNum with
      | none => .panicked
      | some maximumDataCenterId =>
        match shl64 1 serviceIdBitNum with
        | none => .panicked
        | some maximumServiceId =>
          match shl64 1 (64 - timestampBitNum - dataCenterBitNum - serviceIdBitNum) with
          | none => .panicked
          | some maximumId =>
            .ok
              { config :=
                  { maximumTimestamp := maximumTimestamp
                    maximumDataCenterId := maximumDataCenterId
                    maximumServiceId := maximumServiceId
                    maximumId := maximumId
                    timestampOffset := timestampOffset
                    dataCenterIdOffset := dataCenterIdOffset
                    serviceIdOffset := serviceIdOffset
                    idOffset := idOffset }
                curTimestamp := wallClock
                curId := 0
                dataCenterId := 0
                serviceId := 0 }

/-- The loop `for now == sig.curTimestamp { Unlock; Gosched; Lock }` of
`Generate`. Each element of `stores` is one pass through the loop body: what
the clock maintenance routine (`sfg.curTimestamp = uint64(time.Now().UnixMilli())`
in `getSnowflakeRunner`) stored while the timestamp lock was released, `none`
when it stored nothing. The result is the value of `curTimestamp` when the loop
ends, `none` when the routine never stores a different millisecond. -/
def waitNextMillisecond (now : Nat) (curTimestamp : Nat) :
    List (Option Nat) → Option Nat
  | [] => if now = curTimestamp then none else some curTimestamp
  | store :: rest =>
    if now = curTimestamp then
      waitNextMillisecond now (store.getD curTimestamp) rest
    else some curTimestamp

/-- Lines 115 to 126 of `Generate`: the clock check and the packing. -/
def packIdentity (sig : SnowflakeIdGenerator) : Outcome Nat :=
  let passedTime := sub64 sig.curTimestamp systemStartTime
  if passedTime > sig.config.maximumTimestamp then
    .error .clockFailure
  else
    match shl64 passedTime sig.config.timestampOffset with
    | none => .panicked
    | some timestampPart =>
      match shl64 sig.dataCenterId sig.config.dataCenterIdOffset with
      | none => .panicked
      | some dataCenterPart =>
        match shl64 sig.serviceId sig.config.serviceIdOffset with
        | none => .panicked
        | some servicePart =>
          .ok ((((0 ||| timestampPart) ||| dataCenterPart) ||| servicePart) ||| sig.curId)

/-- Lines 97 to 113 of `Generate`: the update of `curTimestamp` and `curId`
for a clock reading `now` with `curTimestamp ≤ now`; `none` when the busy-wait
never ends. -/
def advance (sig : SnowflakeIdGenerator) (now : Nat)
    (stores : List (Option Nat)) : Option SnowflakeIdGenerator :=
  if sig.curTimestamp = now then
    let curId := (sig.curId + 1) % uint64Size
    if curId ≥ sig.config.maximumId then
      match waitNextMillisecond now sig.curTimestamp stores with
      | none => none
      | some curTimestamp => some { sig with curId := 0, curTimestamp := curTimestamp }
    else
      some { sig with curId := curId }
  else
    some { sig with curTimestamp := now, curId := 0 }

/-- Generate generates a new identity. `now` is the clock reading of line 92,
`stores` the environment of the busy-wait. The result is the outcome of the call
(the `uint64` of the returned `SnowflakeIdentity`) and the generator after it. -/
def Generate (sig : SnowflakeIdGenerator) (now : Nat)
    (stores : List (Option Nat)) : Outcome Nat × SnowflakeIdGenerator :=
  if sig.curTimestamp > now then
    (.error .clockBackwards, sig)
  else
    match advance sig now stores with
    | none => (.spinning, { sig with curId := 0 })
    | some sig1 => (packIdentity sig1, sig1)

/-- One value of the `interface{}` entries of the stored configuration. -/
inductive ConfigValue where
  /-- a value of dynamic type `int` -/
  | int (v : Int)
  /-- a whole number of another dynamic type (`int64`, `uint64`, ...) -/
  | int64 (v : Int)
  | text (s : String)
  | flag (b : Bool)
  | null
  deriving DecidableEq, Repr

/-- What `snowflakeConfig.Load()` holds: a `map[string]interface{}` or a
value of another type. -/
inductive StoredConfig where
  | table (entries : List (String × ConfigValue))
  | other
  deriving DecidableEq, Repr

/-- ConfigGetUint64 over the stored configuration; `uint64(result)` of a Go
`int` is its value modulo `2 ^ 64`. -/
def ConfigGetUint64 (snowflakeConfig : StoredConfig) (name : String) : Outcome Nat :=
  match snowflakeConfig with
  | .other => .error .configNotLoaded
  | .table sfcfg =>
    match sfcfg.lookup name with
    | none => .error (.configNotInclude name)
    | some (.int result) => .ok (result % (uint64Size : Int)).toNat
    | some _ => .error .illegalType

/-- A sequence of `Generate` calls on one generator, each with its clock
reading and busy-wait environment: the outcomes in call order and the final
generator. -/
def generateAll (sig : SnowflakeIdGenerator) :
    List (Nat × List (Option Nat)) → List (Outcome Nat) × SnowflakeIdGenerator
  | [] => ([], sig)
  | (now, stores) :: rest =>
    let step := Generate sig now stores
    let tail := generateAll step.2 rest
    (step.1 :: tail.1, tail.2)

/-- IdGeneratorManager holds instances of all kinds of id generator. -/
structure IdGeneratorManager where
  snowflake : SnowflakeIdGenerator
  deriving DecidableEq, Repr

/-- NewIdGeneratorManager creates a new manager; `wallClock` is the clock
reading of the snowflake constructor. -/
def NewIdGeneratorManager (wallClock : Nat) : Outcome IdGeneratorManager :=
  match NewSnowflakeIdGenerator wallClock 42 5 5 with
  | .ok snowflake => .ok { snowflake := snowflake }
  | .error err => .error err
  | .panicked => .panicked
  | .spinning => .spinning

/-- Generate of the manager: generates an id with the explicit generating
algorithm. `now` and `stores` are the clock reading and the busy-wait
environment of the generator's `Generate`. -/
def IdGeneratorManager.Generate (igm : IdGeneratorManager) (algorithm : String)
    (now : Nat) (stores : List (Option Nat)) : Outcome Nat × IdGeneratorManager :=
  if algorithm = "snowflake" then
    ((IdServer.Generate igm.snowflake now stores).1,
      { igm with snowflake := (IdServer.Generate igm.snowflake now stores).2 })
  else
    (.error .noSuchAlgorithm, igm)

/-- `type SnowflakeIdentity uint64`. -/
abbrev SnowflakeIdentity := Nat

/-- The character of one decimal digit. -/
def digitChar (d : Nat) : Char := Char.ofNat (48 + d)

/-- Go `fmt.Sprintf("%d", v)` of a `uint64`: the decimal digits of `v`, most
significant first, without sign or leading zero, and "0" for zero. -/
def formatDecimal (v : Nat) : String :=
  if v = 0 then "0" else String.mk ((Nat.digits 10 v).reverse.map digitChar)

/-- Value of the identity: `uint64(si)`. -/
def SnowflakeIdentity.Value (si : SnowflakeIdentity) : Nat := si

/-- String of the identity: `fmt.Sprintf("%d", uint64(si))`. -/
def SnowflakeIdentity.String (si : SnowflakeIdentity) : String := formatDecimal si

/-- One step of reading a decimal number: the next character must be a digit. -/
def parseStep (acc : Option Nat) (ch : Char) : Option Nat :=
  match acc with
  | none => none
  | some a => if ch.isDigit then some (10 * a + (ch.toNat - 48)) else none

/-- Reading a text as an unsigned decimal number; `none` for the empty text
and for a text with a character that is not a digit. -/
def parseDecimal (text : String) : Option Nat :=
  if text.data = [] then none else text.data.foldl parseStep (some 0)

/-- The canonical unsigned decimal numerals, in the words of the interface
("decimal text representation"): a non-empty text of decimal digits that does
not start with the digit zero, except for the text "0" itself. -/
def canonicalDecimal (text : String) : Prop :=
  text.data ≠ [] ∧ (∀ ch ∈ text.data, ch.isDigit = true) ∧
    (text.data.head? = some '0' → text.data = ['0'])

/-! Auxiliary facts. -/

theorem shl64_one_of_range (n : Int) (h0 : 0 ≤ n) (h64 : n ≤ 64) :
    shl64 1 n = some (if n < 64 then 2 ^ n.toNat else 0) := by
  unfold shl64
  have hneg : ¬ n < 0 := by omega
  by_cases h : n < 64
  · have hge : ¬ (64 : Int) ≤ n := by omega
    have hlt : n.toNat < 64 := by omega
    have hpow : 2 ^ n.toNat < uint64Size := by
      unfold uint64Size
      exact Nat.pow_lt_pow_right (by decide) hlt
    simp [hneg, hge, h, Nat.mod_eq_of_lt hpow]
  · have hge : (64 : Int) ≤ n := by omega
    simp [hneg, hge, h]

theorem checkBitNum_iff (n : Int) : checkBitNum n = true ↔ 0 ≤ n ∧ n ≤ 64 := by
  simp [checkBitNum]

/-- What `NewSnowflakeIdGenerator` returns, by cases on its arguments. -/
theorem NewSnowflakeIdGenerator_ok_iff (c : Nat) (t d s : Int) (g : SnowflakeIdGenerator) :
    NewSnowflakeIdGenerator c t d s = .ok g ↔
      (0 ≤ t ∧ t ≤ 64) ∧ (0 ≤ d ∧ d ≤ 64) ∧ (0 ≤ s ∧ s ≤ 64) ∧ t + d + s ≤ 64 ∧
      g =
        { config :=
            { maximumTimestamp := if t < 64 then 2 ^ t.toNat else 0
              maximumDataCenterId := if d < 64 then 2 ^ d.toNat else 0
              maximumServiceId := if s < 64 then 2 ^ s.toNat else 0
              maximumId := if 64 - t - d - s < 64 then 2 ^ (64 - t - d - s).toNat else 0
              timestampOffset := 64 - t - d - s + s + d + d
              dataCenterIdOffset := 64 - t - d - s + s + d
              serviceIdOffset := 64 - t - d - s + s
              idOffset := 64 - t - d - s }
          curTimestamp := c
          curId := 0
          dataCenterId := 0
          serviceId := 0 } := by
  unfold NewSnowflakeIdGenerator
  by_cases ht : 0 ≤ t ∧ t ≤ 64
  · by_cases hd : 0 ≤ d ∧ d ≤ 64
    · by_cases hs : 0 ≤ s ∧ s ≤ 64
      · have ct := (checkBitNum_iff t).2 ht
        have cd := (checkBitNum_iff d).2 hd
        have cs := (checkBitNum_iff s).2 hs
        simp only [ct, cd, cs, Bool.not_true, Bool.or_self, Bool.false_eq_true, if_false,
          shl64_one_of_range t ht.1 ht.2, shl64_one_of_range d hd.1 hd.2,
          shl64_one_of_range s hs.1 hs.2]
        by_cases hsum : t + d + s ≤ 64
        · rw [shl64_one_of_range (64 - t - d - s) (by omega) (by omega)]
          simp only [Outcome.ok.injEq]
          constructor
          · intro h
            exact ⟨ht, hd, hs, hsum, h.symm⟩
          · intro h
            exact h.2.2.2.2.symm
        · have hneg : shl64 1 (64 - t - d - s) = none := by
            unfold shl64
            have : 64 - t - d - s < 0 := by omega
            simp [this]
          rw [hneg]
          simp [hsum]
      · have cs : checkBitNum s = false := by
          cases h : checkBitNum s
          · rfl
          · exact absurd ((checkBitNum_iff s).1 h) hs
        simp [cs, hs]
    · have cd : checkBitNum d = false := by
        cases h : checkBitNum d
        · rfl
        · exact absurd ((checkBitNum_iff d).1 h) hd
      simp [cd, hd]
  · have ct : checkBitNum t = false := by
      cases h : checkBitNum t
      · rfl
      · exact absurd ((checkBitNum_iff t).1 h) ht
    simp [ct, ht]

/-- A call whose clock reading is earlier than the stored millisecond. -/
theorem Generate_clock_backwards (sig : SnowflakeIdGenerator) (now : Nat)
    (stores : List (Option Nat)) (h : sig.curTimestamp > now) :
    Generate sig now stores = (.error .clockBackwards, sig) := by
  simp [Generate, h]

/-- A same-millisecond call that does not exhaust the sequence space. -/
theorem Generate_next_in_millisecond (sig : SnowflakeIdGenerator)
    (stores : List (Option Nat))
    (hlt : (sig.curId + 1) % uint64Size < sig.config.maximumId) :
    Generate sig sig.curTimestamp stores =
      (packIdentity { sig with curId := (sig.curId + 1) % uint64Size },
        { sig with curId := (sig.curId + 1) % uint64Size }) := by
  have hge : ¬ (sig.curId + 1) % uint64Size ≥ sig.config.maximumId := by omega
  simp [Generate, advance, hge]

/-- A call at a later millisecond than the stored one. -/
theorem Generate_new_millisecond (sig : SnowflakeIdGenerator) (now : Nat)
    (stores : List (Option Nat)) (h : sig.curTimestamp < now) :
    Generate sig now stores =
      (packIdentity { sig with curTimestamp := now, curId := 0 },
        { sig with curTimestamp := now, curId := 0 }) := by
  have h1 : ¬ sig.curTimestamp > now := by omega
  have h2 : ¬ sig.curTimestamp = now := by omega
  simp [Generate, advance, h1, h2]

/-- A same-millisecond call that exhausts the sequence space and whose
busy-wait ends. -/
theorem Generate_after_wait (sig : SnowflakeIdGenerator) (stores : List (Option Nat))
    (later : Nat)
    (hfull : sig.config.maximumId ≤ (sig.curId + 1) % uint64Size)
    (hwait : waitNextMillisecond sig.curTimestamp sig.curTimestamp stores = some later) :
    Generate sig sig.curTimestamp stores =
      (packIdentity { sig with curId := 0, curTimestamp := later },
        { sig with curId := 0, curTimestamp := later }) := by
  simp [Generate, advance, hfull, hwait]

theorem packIdentity_clock_failure (sig : SnowflakeIdGenerator)
    (hclock : sub64 sig.curTimestamp systemStartTime > sig.config.maximumTimestamp) :
    packIdentity sig = .error .clockFailure := by
  simp [packIdentity, hclock]

theorem shl64_dvd (x : Nat) (n : Int) (v k : Nat) (h : shl64 x n = some v)
    (hk : (k : Int) ≤ n) : 2 ^ k ∣ v := by
  unfold shl64 at h
  split_ifs at h with h0 h64
  · cases h
    exact dvd_zero _
  · cases h
    have hk64 : k ≤ 64 := by omega
    have hkn : k ≤ n.toNat := by omega
    have hmod : 2 ^ k ∣ uint64Size := by
      unfold uint64Size
      exact pow_dvd_pow 2 hk64
    exact (Nat.dvd_mod_iff hmod).2 (Dvd.dvd.mul_left (pow_dvd_pow 2 hkn) x)

theorem or_mod_two_pow (a b k : Nat) : (a ||| b) % 2 ^ k = a % 2 ^ k ||| b % 2 ^ k := by
  apply Nat.eq_of_testBit_eq
  intro i
  simp only [Nat.testBit_mod_two_pow, Nat.testBit_or]
  cases decide (i < k) <;> simp

theorem generateAll_cons (sig : SnowflakeIdGenerator) (now : Nat)
    (stores : List (Option Nat)) (rest : List (Nat × List (Option Nat))) :
    generateAll sig ((now, stores) :: rest) =
      ((Generate sig now stores).1 :: (generateAll (Generate sig now stores).2 rest).1,
        (generateAll (Generate sig now stores).2 rest).2) := rfl

/-- What `Generate` never touches. -/
theorem Generate_keeps_fixed (sig : SnowflakeIdGenerator) (now : Nat)
    (stores : List (Option Nat)) :
    (Generate sig now stores).2.config = sig.config ∧
      (Generate sig now stores).2.dataCenterId = sig.dataCenterId ∧
      (Generate sig now stores).2.serviceId = sig.serviceId := by
  unfold Generate
  by_cases hback : sig.curTimestamp > now
  · simp [hback]
  · simp only [hback, if_false]
    unfold advance
    by_cases heq : sig.curTimestamp = now
    · simp only [heq, if_true]
      by_cases hfull : (sig.curId + 1) % uint64Size ≥ sig.config.maximumId
      · simp only [hfull, if_true]
        cases waitNextMillisecond now now stores <;> simp
      · simp only [hfull, if_false]
        simp
    · simp only [heq, if_false]
      simp

/-- The bound `curId < maximumId` is kept by `Generate`. -/
theorem Generate_keeps_bound (sig : SnowflakeIdGenerator) (now : Nat)
    (stores : List (Option Nat)) (h : sig.curId < sig.config.maximumId) :
    (Generate sig now stores).2.curId < (Generate sig now stores).2.config.maximumId := by
  have hpos : 0 < sig.config.maximumId := by omega
  unfold Generate
  by_cases hback : sig.curTimestamp > now
  · simpa [hback] using h
  · simp only [hback, if_false]
    unfold advance
    by_cases heq : sig.curTimestamp = now
    · simp only [heq, if_true]
      by_cases hfull : (sig.curId + 1) % uint64Size ≥ sig.config.maximumId
      · simp only [hfull, if_true]
        cases waitNextMillisecond now now stores <;> exact hpos
      · simp only [hfull, if_false]
        show (sig.curId + 1) % uint64Size < sig.config.maximumId
        omega
    · simp only [heq, if_false]
      exact hpos

theorem digitChar_digit (d : Nat) (h : d < 10) :
    (digitChar d).isDigit = true ∧ (digitChar d).toNat - 48 = d := by
  interval_cases d <;> exact ⟨by decide, by decide⟩

theorem foldl_parseStep_digits (digits : List Nat) (h : ∀ d ∈ digits, d < 10) :
    (digits.reverse.map digitChar).foldl parseStep (some 0)
      = some (Nat.ofDigits 10 digits) := by
  induction digits with
  | nil => rfl
  | cons d rest ih =>
    have hrest : ∀ x ∈ rest, x < 10 := fun x hx => h x (List.mem_cons_of_mem _ hx)
    obtain ⟨hdigit, hval⟩ := digitChar_digit d (h d (List.mem_cons_self _ _))
    rw [List.reverse_cons, List.map_append, List.foldl_append, ih hrest]
    simp only [List.map_cons, List.map_nil, List.foldl_cons, List.foldl_nil, parseStep,
      hdigit, if_true, hval, Nat.ofDigits_cons, Nat.cast_id]
    congr 1
    omega

/-- Reading back what `formatDecimal` writes. -/
theorem parseDecimal_formatDecimal (v : Nat) : parseDecimal (formatDecimal v) = some v := by
  unfold formatDecimal
  by_cases hv : v = 0
  · subst hv
    decide
  · have hne : (Nat.digits 10 v).reverse.map digitChar ≠ [] := by
      simp [Nat.digits_ne_nil_iff_ne_zero, hv]
    simp only [hv, if_false, parseDecimal, hne]
    rw [foldl_parseStep_digits _ (fun d hd => Nat.digits_lt_base (by decide) hd),
      Nat.ofDigits_digits]

theorem generateAll_keeps_config (calls : List (Nat × List (Option Nat))) :
    ∀ sig : SnowflakeIdGenerator, (generateAll sig calls).2.config = sig.config := by
  induction calls with
  | nil => intro sig; rfl
  | cons call rest ih =>
    intro sig
    obtain ⟨now, stores⟩ := call
    rw [generateAll_cons]
    exact (ih _).trans (Generate_keeps_fixed sig now stores).1

theorem generateAll_keeps_bound (calls : List (Nat × List (Option Nat))) :
    ∀ sig : SnowflakeIdGenerator, sig.curId < sig.config.maximumId →
      (generateAll sig calls).2.curId < (generateAll sig calls).2.config.maximumId := by
  induction calls with
  | nil => intro sig h; exact h
  | cons call rest ih =>
    intro sig h
    obtain ⟨now, stores⟩ := call
    rw [generateAll_cons]
    exact ih _ (Generate_keeps_bound sig now stores h)

/-- The bits of an Identity below every offset are those of `curId`. -/
theorem packIdentity_low_bits (sig : SnowflakeIdGenerator) (k id : Nat)
    (h1 : (k : Int) ≤ sig.config.timestampOffset)
    (h2 : (k : Int) ≤ sig.config.dataCenterIdOffset)
    (h3 : (k : Int) ≤ sig.config.serviceIdOffset)
    (hid : packIdentity sig = .ok id) : id % 2 ^ k = sig.curId % 2 ^ k := by
  unfold packIdentity at hid
  simp only at hid
  split_ifs at hid with hclock
  split at hid
  · cases hid
  · rename_i a ha
    split at hid
    · cases hid
    · rename_i b hb
      split at hid
      · cases hid
      · rename_i e he
        cases hid
        have da := Nat.mod_eq_zero_of_dvd (shl64_dvd _ _ a k ha h1)
        have db := Nat.mod_eq_zero_of_dvd (shl64_dvd _ _ b k hb h2)
        have de := Nat.mod_eq_zero_of_dvd (shl64_dvd _ _ e k he h3)
        rw [or_mod_two_pow, or_mod_two_pow, or_mod_two_pow, or_mod_two_pow, da, db, de]
        simp

/-- A clock before the epoch wraps the elapsed time above every maximum of an
accepted configuration. -/
theorem sub64_before_epoch (x maximum : Nat) (hx : x < systemStartTime)
    (hmax : maximum ≤ 2 ^ 63) : sub64 x systemStartTime > maximum := by
  unfold sub64 uint64Size
  unfold systemStartTime at hx ⊢
  norm_num at hmax ⊢
  omega

theorem maximumTimestamp_le (c : Nat) (t d s : Int) (g : SnowflakeIdGenerator)
    (hnew : NewSnowflakeIdGenerator c t d s = .ok g) :
    g.config.maximumTimestamp ≤ 2 ^ 63 := by
  obtain ⟨ht, -, -, -, rfl⟩ := (NewSnowflakeIdGenerator_ok_iff c t d s g).1 hnew
  show (if t < 64 then 2 ^ t.toNat else 0) ≤ 2 ^ 63
  split_ifs with h
  · exact Nat.pow_le_pow_right (by decide) (by omega)
  · exact Nat.zero_le _

theorem isDigit_iff (c : Char) : c.isDigit = true ↔ 48 ≤ c.toNat ∧ c.toNat ≤ 57 := by
  unfold Char.isDigit Char.toNat
  simp only [Bool.and_eq_true, decide_eq_true_eq, ge_iff_le]
  rw [UInt32.le_def, UInt32.le_def]
  rfl

theorem digitChar_toNat_sub (c : Char) (h : c.isDigit = true) :
    digitChar (c.toNat - 48) = c ∧ c.toNat - 48 < 10 := by
  obtain ⟨h1, h2⟩ := (isDigit_iff c).1 h
  refine ⟨?_, by omega⟩
  unfold digitChar
  rw [Nat.add_sub_cancel' h1, Char.ofNat_toNat]

theorem digitChar_eq_zero (d : Nat) (h : d < 10) : digitChar d = '0' ↔ d = 0 := by
  interval_cases d <;> decide

/-- What `formatDecimal` writes is a canonical decimal numeral. -/
theorem canonicalDecimal_formatDecimal (v : Nat) : canonicalDecimal (formatDecimal v) := by
  unfold formatDecimal canonicalDecimal
  by_cases hv : v = 0
  · subst hv
    refine ⟨by decide, ?_, fun _ => rfl⟩
    intro ch hch
    have : ch = '0' := by simpa using hch
    subst this
    decide
  · have hne : Nat.digits 10 v ≠ [] := Nat.digits_ne_nil_iff_ne_zero.2 hv
    simp only [hv, if_false]
    refine ⟨by simp [hne], ?_, ?_⟩
    · intro ch hch
      obtain ⟨d, hd, rfl⟩ := List.mem_map.1 hch
      exact (digitChar_digit d (Nat.digits_lt_base (by decide) (List.mem_reverse.1 hd))).1
    · intro hhead
      exfalso
      have hlast := Nat.getLast_digit_ne_zero 10 hv
      have hmem : (Nat.digits 10 v).getLast hne ∈ Nat.digits 10 v := List.getLast_mem hne
      have hlt := Nat.digits_lt_base (by decide : 1 < 10) hmem
      have hh : ((Nat.digits 10 v).reverse.map digitChar).head?
          = some (digitChar ((Nat.digits 10 v).getLast hne)) := by
        rw [List.head?_map, List.head?_reverse, List.getLast?_eq_getLast _ hne]
        rfl
      rw [hh] at hhead
      exact hlast ((digitChar_eq_zero _ hlt).1 (Option.some.inj hhead))

/-- A canonical decimal numeral is what `formatDecimal` writes for its value. -/
theorem formatDecimal_of_canonical (text : String) (v : Nat)
    (hcan : canonicalDecimal text) (hval : parseDecimal text = some v) :
    text = formatDecimal v := by
  obtain ⟨hne, hdig, hzero⟩ := hcan
  unfold parseDecimal at hval
  rw [if_neg hne] at hval
  -- the digits of the text, least significant first
  have hchars : text.data = (text.data.map (fun c => c.toNat - 48)).reverse.reverse.map digitChar := by
    rw [List.reverse_reverse, List.map_map]
    conv_lhs => rw [← List.map_id text.data]
    apply List.map_congr_left
    intro c hc
    exact (digitChar_toNat_sub c (hdig c hc)).1.symm
  have hlt : ∀ d ∈ (text.data.map (fun c => c.toNat - 48)).reverse, d < 10 := by
    intro d hd
    obtain ⟨c, hc, rfl⟩ := List.mem_map.1 (List.mem_reverse.1 hd)
    exact (digitChar_toNat_sub c (hdig c hc)).2
  rw [hchars, foldl_parseStep_digits _ hlt] at hval
  have hv : v = Nat.ofDigits 10 (text.data.map (fun c => c.toNat - 48)).reverse :=
    (Option.some.inj hval).symm
  by_cases hz : text.data = ['0']
  · have h0 : v = 0 := by
      rw [hv, hz]
      decide
    subst h0
    show text = "0"
    cases text with
    | mk data =>
      simp only at hz
      rw [hz]
  · have hdigits : Nat.digits 10 v = (text.data.map (fun c => c.toNat - 48)).reverse := by
      rw [hv]
      refine Nat.digits_ofDigits 10 (by decide) _ hlt ?_
      intro hnonempty
      rw [List.getLast_reverse]
      intro hc0
      have hh := (List.head?_eq_head (l := text.data.map (fun c => c.toNat - 48))
        (by simpa using hne)).trans (congrArg some hc0)
      rw [List.head?_map] at hh
      cases hdata : text.data with
      | nil => exact absurd hdata hne
      | cons c rest =>
        rw [hdata] at hh
        have hc0' : c.toNat - 48 = 0 := by simpa using hh
        have hcd := hdig c (by rw [hdata]; exact List.mem_cons_self _ _)
        have hc : c = '0' := by
          have h1 := (digitChar_toNat_sub c hcd).1
          rw [hc0'] at h1
          exact h1.symm
        have hhead : text.data.head? = some '0' := by
          rw [hdata, hc]
          rfl
        exact hz (hzero hhead)
    have hvne : v ≠ 0 := by
      intro h0
      rw [h0] at hdigits
      have : (text.data.map (fun c => c.toNat - 48)).reverse = [] := by
        rw [← hdigits]
        simp
      simp at this
      exact hne this
    unfold formatDecimal
    rw [if_neg hvne, hdigits, ← hchars]

/-! The claims. -/

/-- C4. Clock regression rejection: for every generator state and every clock
reading `now` with `curTimestamp > now`, `Generate` returns the error "center
clock is moving backwards", no Identity, and the generator is exactly the one
before the call. -/
theorem Generate_clock_regression (sig : SnowflakeIdGenerator) (now : Nat)
    (stores : List (Option Nat)) (h : sig.curTimestamp > now) :
    Generate sig now stores = (.error .clockBackwards, sig) := by
  simp [Generate, h]

theorem Generate_clock_regression_witness :
    ∃ g, NewSnowflakeIdGenerator (systemStartTime + 5) 42 5 5 = .ok g ∧
      g.curTimestamp > systemStartTime + 4 ∧
      Generate g (systemStartTime + 4) [] = (.error .clockBackwards, g) :=
  ⟨_, rfl, by decide, Generate_clock_regression _ _ _ (by decide)⟩

/-- C1. Uniqueness fails on the code: a reference (42,5,5) generator built at
the epoch and called at the clock readings epoch, epoch + 2 ^ 37, epoch + 2 ^ 37
(non-decreasing, every elapsed time below 2 ^ 42, sequence numbers 1, 0, 1 far
from 4096) succeeds three times and returns the Identities 1, 0, 1: the elapsed
time is shifted by `timestampOffset = 27`, so its bits from 37 up are lost. -/
theorem Generate_repeats_identity :
    ∃ g, NewSnowflakeIdGenerator systemStartTime 42 5 5 = .ok g ∧
      List.Pairwise (fun a b => a ≤ b)
        [systemStartTime, systemStartTime + 2 ^ 37, systemStartTime + 2 ^ 37] ∧
      sub64 (systemStartTime + 2 ^ 37) systemStartTime < 2 ^ 42 ∧
      (generateAll g [(systemStartTime, []), (systemStartTime + 2 ^ 37, []),
        (systemStartTime + 2 ^ 37, [])]).1 = [.ok 1, .ok 0, .ok 1] ∧
      ¬ List.Nodup [1, 0, 1] :=
  ⟨_, rfl, by decide, by decide, by decide, by decide⟩

/-- C2. Field round-trip fails on the code: with the configuration
`data_center_id = 3`, `service_id = 5` (both in [0,32)), `ConfigGetUint64`
returns 3 and 5, while the generator built by `NewSnowflakeIdGenerator(42,5,5)`
has `dataCenterId = serviceId = 0` and its Identity `id` has
`(id >> 17) & 0x1F = 0` and `(id >> 12) & 0x1F = 0`. -/
theorem Generate_fields_ignore_config :
    ∃ g id,
      ConfigGetUint64 (.table [("data_center_id", .int 3), ("service_id", .int 5)])
        "data_center_id" = .ok 3 ∧
      ConfigGetUint64 (.table [("data_center_id", .int 3), ("service_id", .int 5)])
        "service_id" = .ok 5 ∧
      NewSnowflakeIdGenerator systemStartTime 42 5 5 = .ok g ∧
      (Generate g (systemStartTime + 1) []).1 = .ok id ∧
      (id >>> 17) &&& 0x1F = 0 ∧ (id >>> 12) &&& 0x1F = 0 :=
  ⟨_, 2 ^ 27, by decide, by decide, rfl, by decide, by decide, by decide⟩

/-- C3. Bit layout as the code computes it: for every accepted triple of
widths, with `idBits = 64 - timestampBits - partitionBits - shardBits`, the
configuration has `idOffset = idBits`, `serviceIdOffset = idBits + shardBits`,
`dataCenterIdOffset = idBits + shardBits + partitionBits` and
`timestampOffset = idBits + shardBits + 2 * partitionBits`: every offset is one
field higher than the layout 0, idBits, idBits + shardBits,
idBits + shardBits + partitionBits (12, 17, 22, 27 for (42,5,5), not 0, 12, 17, 22). -/
theorem NewSnowflakeIdGenerator_offsets (c : Nat) (t d s : Int) (g : SnowflakeIdGenerator)
    (h : NewSnowflakeIdGenerator c t d s = .ok g) :
    g.config.idOffset = 64 - t - d - s ∧
      g.config.serviceIdOffset = (64 - t - d - s) + s ∧
      g.config.dataCenterIdOffset = (64 - t - d - s) + s + d ∧
      g.config.timestampOffset = (64 - t - d - s) + s + 2 * d := by
  obtain ⟨-, -, -, -, rfl⟩ := (NewSnowflakeIdGenerator_ok_iff c t d s g).1 h
  refine ⟨rfl, rfl, rfl, ?_⟩
  show 64 - t - d - s + s + d + d = 64 - t - d - s + s + 2 * d
  ring

theorem NewSnowflakeIdGenerator_offsets_witness :
    ∃ g, NewSnowflakeIdGenerator systemStartTime 42 5 5 = .ok g ∧
      g.config.idOffset = 12 ∧ g.config.serviceIdOffset = 17 ∧
      g.config.dataCenterIdOffset = 22 ∧ g.config.timestampOffset = 27 :=
  ⟨_, rfl, NewSnowflakeIdGenerator_offsets systemStartTime 42 5 5 _ rfl⟩

/-- C5. Clock exhaustion is checked with `>`: a reference (42,5,5) generator
asked at the millisecond where `elapsed = curTimestamp - systemStartTime` is
exactly `maximumTimestamp = 2 ^ 42` returns an Identity (the value 0) and no
error, although `elapsed >= maximumTimestamp`. -/
theorem Generate_at_maximumTimestamp :
    ∃ g, NewSnowflakeIdGenerator systemStartTime 42 5 5 = .ok g ∧
      g.config.maximumTimestamp = 2 ^ 42 ∧
      (Generate g (systemStartTime + 2 ^ 42) []).2.curTimestamp = systemStartTime + 2 ^ 42 ∧
      sub64 (systemStartTime + 2 ^ 42) systemStartTime ≥ g.config.maximumTimestamp ∧
      (Generate g (systemStartTime + 2 ^ 42) []).1 = .ok 0 :=
  ⟨_, rfl, by decide, by decide, by decide, by decide⟩

/-- C6. Construction validation misses the sum: when a width is outside
[0,64] `NewSnowflakeIdGenerator` returns the error "illegal number of bits", but
when every width is in [0,64] and their sum is greater than 64 it returns
neither an error nor a generator: the shift `1 << (64 - sum)` of line 67 has a
negative count, a run-time panic (so for the widths (42, 20, 5)). -/
theorem NewSnowflakeIdGenerator_validation (c : Nat) (t d s : Int) :
    ((t < 0 ∨ 64 < t) ∨ (d < 0 ∨ 64 < d) ∨ (s < 0 ∨ 64 < s) →
        NewSnowflakeIdGenerator c t d s = .error (.illegalBits t d s)) ∧
      ((0 ≤ t ∧ t ≤ 64) ∧ (0 ≤ d ∧ d ≤ 64) ∧ (0 ≤ s ∧ s ≤ 64) → t + d + s > 64 →
        NewSnowflakeIdGenerator c t d s = .panicked) := by
  constructor
  · intro h
    have hbad : (!checkBitNum t || !checkBitNum d || !checkBitNum s) = true := by
      simp only [checkBitNum, Bool.or_eq_true, Bool.not_eq_true', Bool.and_eq_false_imp,
        decide_eq_true_eq, decide_eq_false_iff_not]
      rcases h with h | h | h
      · exact Or.inl (Or.inl (fun _ => by omega))
      · exact Or.inl (Or.inr (fun _ => by omega))
      · exact Or.inr (fun _ => by omega)
    unfold NewSnowflakeIdGenerator
    rw [if_pos hbad]
  · rintro ⟨ht, hd, hs⟩ hsum
    have ct := (checkBitNum_iff t).2 ht
    have cd := (checkBitNum_iff d).2 hd
    have cs := (checkBitNum_iff s).2 hs
    have hneg : shl64 1 (64 - t - d - s) = none := by
      unfold shl64
      have : 64 - t - d - s < 0 := by omega
      simp [this]
    unfold NewSnowflakeIdGenerator
    simp only [ct, cd, cs, Bool.not_true, Bool.or_self, Bool.false_eq_true, if_false,
      shl64_one_of_range t ht.1 ht.2, shl64_one_of_range d hd.1 hd.2,
      shl64_one_of_range s hs.1 hs.2, hneg]

theorem NewSnowflakeIdGenerator_validation_witness :
    NewSnowflakeIdGenerator systemStartTime 65 5 5 = .error (.illegalBits 65 5 5) ∧
      NewSnowflakeIdGenerator systemStartTime 42 20 5 = .panicked :=
  ⟨(NewSnowflakeIdGenerator_validation systemStartTime 65 5 5).1 (by decide),
    (NewSnowflakeIdGenerator_validation systemStartTime 42 20 5).2 (by decide) (by decide)⟩

/-- C8, as stated, fails at the widths (64, 0, 0): the constructor accepts
them and `maximumTimestamp` is `uint64(1 << 64) = 0`, not `2 ^ 64`. -/
theorem NewSnowflakeIdGenerator_width_64_maximum_zero :
    ∃ g, NewSnowflakeIdGenerator systemStartTime 64 0 0 = .ok g ∧
      g.config.maximumTimestamp = 0 ∧ g.config.maximumTimestamp ≠ 2 ^ (64 : Int).toNat :=
  ⟨_, rfl, rfl, by decide⟩

/-- C8, amended. Field maxima: for every accepted triple of widths each
maximum is `2 ^ bits` when its field is narrower than 64 bits and 0 (the
`uint64` value of `1 << 64`) when the field has exactly 64 bits, for the
timestamp, data center, service and sequence fields, the last of width
`64 - timestampBits - partitionBits - shardBits`. -/
theorem NewSnowflakeIdGenerator_maxima (c : Nat) (t d s : Int) (g : SnowflakeIdGenerator)
    (h : NewSnowflakeIdGenerator c t d s = .ok g) :
    g.config.maximumTimestamp = (if t < 64 then 2 ^ t.toNat else 0) ∧
      g.config.maximumDataCenterId = (if d < 64 then 2 ^ d.toNat else 0) ∧
      g.config.maximumServiceId = (if s < 64 then 2 ^ s.toNat else 0) ∧
      g.config.maximumId =
        (if 64 - t - d - s < 64 then 2 ^ (64 - t - d - s).toNat else 0) := by
  obtain ⟨-, -, -, -, rfl⟩ := (NewSnowflakeIdGenerator_ok_iff c t d s g).1 h
  exact ⟨rfl, rfl, rfl, rfl⟩

theorem NewSnowflakeIdGenerator_maxima_witness :
    ∃ g, NewSnowflakeIdGenerator systemStartTime 42 5 5 = .ok g ∧
      g.config.maximumTimestamp = 2 ^ 42 ∧ g.config.maximumDataCenterId = 32 ∧
      g.config.maximumServiceId = 32 ∧ g.config.maximumId = 4096 :=
  ⟨_, rfl, NewSnowflakeIdGenerator_maxima systemStartTime 42 5 5 _ rfl⟩

/-- C9. The timestamp component is not monotonic on the code: a reference
(42,5,5) generator built at the epoch returns the Identity `2 ^ 27` at clock
reading epoch + 1 and then the Identity 0 at the later reading epoch + 2 ^ 37;
the elapsed-time field `id >> 22` of the later one (0) is smaller than that of
the earlier one (32). -/
theorem Generate_timestamp_field_decreases :
    ∃ g, NewSnowflakeIdGenerator systemStartTime 42 5 5 = .ok g ∧
      systemStartTime + 1 ≤ systemStartTime + 2 ^ 37 ∧
      (generateAll g [(systemStartTime + 1, []), (systemStartTime + 2 ^ 37, [])]).1
        = [.ok (2 ^ 27), .ok 0] ∧
      (0 : Nat) >>> 22 < (2 ^ 27 : Nat) >>> 22 :=
  ⟨_, rfl, by decide, by decide, by decide⟩

/-- C11. Manager dispatch: `NewIdGeneratorManager` returns a manager whose
registered generator is `NewSnowflakeIdGenerator(42,5,5)`, and for every manager
in every state of its generator (the fresh one and every later one),
`Generate("snowflake")` returns exactly the outcome of the registered snowflake
generator's `Generate` and leaves the manager holding that generator's new
state, and for every algorithm name different from "snowflake" `Generate`
returns the error "no such generating algorithm", no Identity, and leaves the
manager and its generator unchanged. -/
theorem IdGeneratorManager_Generate_dispatch (igm : IdGeneratorManager) (now : Nat)
    (stores : List (Option Nat)) :
    (∀ wallClock, ∃ fresh, NewIdGeneratorManager wallClock = .ok fresh ∧
        NewSnowflakeIdGenerator wallClock 42 5 5 = .ok fresh.snowflake) ∧
      igm.Generate "snowflake" now stores =
        ((Generate igm.snowflake now stores).1,
          { snowflake := (Generate igm.snowflake now stores).2 }) ∧
      (∀ algorithm, algorithm ≠ "snowflake" →
        igm.Generate algorithm now stores = (.error .noSuchAlgorithm, igm)) := by
  refine ⟨fun wallClock => ⟨_, rfl, rfl⟩, ?_, ?_⟩
  · simp [IdGeneratorManager.Generate]
  · intro algorithm hne
    simp [IdGeneratorManager.Generate, hne]

theorem IdGeneratorManager_Generate_dispatch_witness :
    ∃ igm, NewIdGeneratorManager systemStartTime = .ok igm ∧
      (igm.Generate "snowflake" systemStartTime []).1 = .ok 1 ∧
      ((igm.Generate "snowflake" systemStartTime []).2.Generate "snowflake"
        systemStartTime []).1 = .ok 2 ∧
      ((igm.Generate "snowflake" systemStartTime []).2.Generate "snowflake"
        systemStartTime []).2.snowflake.curId = 2 ∧
      (igm.Generate "snowflake" systemStartTime []).2.Generate "nonexistent"
        systemStartTime [] =
        (.error .noSuchAlgorithm, (igm.Generate "snowflake" systemStartTime []).2) := by
  refine ⟨_, rfl, by decide, by decide, by decide, ?_⟩
  exact (IdGeneratorManager_Generate_dispatch _ systemStartTime []).2.2 "nonexistent"
    (by decide)

/-- C16. Stored timestamp never decreases: for every generator state and clock
reading `now`, if `Generate` returns an Identity without entering the overflow
busy-wait, the stored `curTimestamp` after the call is greater than or equal to
`curTimestamp` before the call, and equals `now`. -/
theorem Generate_timestamp_not_decreased (sig : SnowflakeIdGenerator) (now : Nat)
    (stores : List (Option Nat)) (id : Nat)
    (hok : (Generate sig now stores).1 = .ok id)
    (hnowait : ¬ (sig.curTimestamp = now ∧
      sig.config.maximumId ≤ (sig.curId + 1) % uint64Size)) :
    sig.curTimestamp ≤ (Generate sig now stores).2.curTimestamp ∧
      (Generate sig now stores).2.curTimestamp = now := by
  by_cases hback : sig.curTimestamp > now
  · rw [Generate_clock_backwards sig now stores hback] at hok
    cases hok
  · by_cases heq : sig.curTimestamp = now
    · have hlt : (sig.curId + 1) % uint64Size < sig.config.maximumId := by
        by_contra hge
        exact hnowait ⟨heq, by omega⟩
      subst heq
      rw [Generate_next_in_millisecond sig stores hlt]
      exact ⟨le_refl _, rfl⟩
    · have hlater : sig.curTimestamp < now := by omega
      rw [Generate_new_millisecond sig now stores hlater]
      exact ⟨by show sig.curTimestamp ≤ now; omega, rfl⟩

theorem Generate_timestamp_not_decreased_witness :
    ∃ g, NewSnowflakeIdGenerator systemStartTime 42 5 5 = .ok g ∧
      (Generate g (systemStartTime + 3) []).1 = .ok (3 * 2 ^ 27) ∧
      g.curTimestamp ≤ (Generate g (systemStartTime + 3) []).2.curTimestamp ∧
      (Generate g (systemStartTime + 3) []).2.curTimestamp = systemStartTime + 3 :=
  ⟨_, rfl, by decide,
    Generate_timestamp_not_decreased _ (systemStartTime + 3) [] (3 * 2 ^ 27)
      (by decide) (by decide)⟩

/-- C18. Frame: for every generator state, clock reading and busy-wait
environment, `Generate`, successful or failing, leaves the configuration (all
four offsets and all four maxima), `dataCenterId` and `serviceId` unchanged;
only `curTimestamp` and `curId` may differ after the call. -/
theorem Generate_frame (sig : SnowflakeIdGenerator) (now : Nat)
    (stores : List (Option Nat)) :
    (Generate sig now stores).2 =
      { sig with curTimestamp := (Generate sig now stores).2.curTimestamp,
                 curId := (Generate sig now stores).2.curId } := by
  obtain ⟨h1, h2, h3⟩ := Generate_keeps_fixed sig now stores
  cases hg : (Generate sig now stores).2 with
  | mk config curTimestamp curId dataCenterId serviceId =>
    rw [hg] at h1 h2 h3
    simp only at h1 h2 h3
    simp [h1, h2, h3]

/-- C12. Identity accessors: for every SnowflakeIdentity built from a value
`v`, `Value()` returns `v` and `String()` is the canonical unsigned decimal
representation of `v`: it is a canonical decimal numeral (digits only, no
leading zero), parsing it as a decimal number gives back `Value()`, it is the
only canonical numeral with that value, and two Identities have equal strings
exactly when they have equal values. -/
theorem SnowflakeIdentity_accessors (v w : SnowflakeIdentity) :
    SnowflakeIdentity.Value v = v ∧
      canonicalDecimal (SnowflakeIdentity.String v) ∧
      parseDecimal (SnowflakeIdentity.String v) = some (SnowflakeIdentity.Value v) ∧
      (∀ text, SnowflakeIdentity.String v = text ↔
        (canonicalDecimal text ∧ parseDecimal text = some (SnowflakeIdentity.Value v))) ∧
      (SnowflakeIdentity.String v = SnowflakeIdentity.String w ↔
        SnowflakeIdentity.Value v = SnowflakeIdentity.Value w) := by
  refine ⟨rfl, canonicalDecimal_formatDecimal v, parseDecimal_formatDecimal v, ?_, ?_, ?_⟩
  · intro text
    constructor
    · intro h
      rw [← h]
      exact ⟨canonicalDecimal_formatDecimal v, parseDecimal_formatDecimal v⟩
    · intro h
      exact (formatDecimal_of_canonical text v h.1 h.2).symm
  · intro h
    have hv := parseDecimal_formatDecimal v
    have hw := parseDecimal_formatDecimal w
    unfold SnowflakeIdentity.String at h
    rw [h, hw] at hv
    exact (Option.some.inj hv).symm
  · intro h
    unfold SnowflakeIdentity.Value at h
    rw [h]

/-- The texts of the Identities 0 and 7, and that the text "07" is not the
text of the Identity 7. -/
theorem SnowflakeIdentity_accessors_witness :
    SnowflakeIdentity.String 0 = "0" ∧
      (canonicalDecimal "7" ∧
        parseDecimal "7" = some (SnowflakeIdentity.Value 7)) ∧
      SnowflakeIdentity.String 7 = "7" ∧
      SnowflakeIdentity.String 7 ≠ "07" := by
  have h7 : SnowflakeIdentity.String 7 = "7" ↔ _ := (SnowflakeIdentity_accessors 7 7).2.2.2.1 "7"
  have hcan : canonicalDecimal "7" ∧ parseDecimal "7" = some (SnowflakeIdentity.Value 7) := by
    refine ⟨⟨by decide, ?_, ?_⟩, by decide⟩
    · intro ch hch
      have : ch = '7' := by simpa using hch
      subst this
      decide
    · intro h
      exact absurd h (by decide)
  refine ⟨rfl, hcan, h7.2 hcan, ?_⟩
  intro h07
  have hbad := ((SnowflakeIdentity_accessors 7 7).2.2.2.1 "07").1 h07
  have hzero := hbad.1.2.2 (by decide)
  exact absurd hzero (by decide)

/-- C13, as stated, fails for a negative stored integer: with
`data_center_id = -1` the accessor succeeds and returns `2 ^ 64 - 1`, which is
not numerically equal to -1. -/
theorem ConfigGetUint64_negative_wraps :
    ConfigGetUint64 (.table [("data_center_id", .int (-1))]) "data_center_id"
        = .ok (2 ^ 64 - 1) ∧
      ((2 ^ 64 - 1 : Nat) : Int) ≠ -1 := by
  refine ⟨by decide, by decide⟩

/-- C13, amended. Configuration accessor: for every stored configuration and
key name, `ConfigGetUint64` returns an error when the configuration is not a
key/value map, when the key is absent, or when the key's value is not of
dynamic type `int`; otherwise it succeeds with the stored `int` reduced modulo
`2 ^ 64`: numerically equal to it when it is non-negative, and larger by
`2 ^ 64` when it is negative. -/
theorem ConfigGetUint64_result (snowflakeConfig : StoredConfig) (name : String) :
    (snowflakeConfig = .other →
        ConfigGetUint64 snowflakeConfig name = .error .configNotLoaded) ∧
      (∀ sfcfg, snowflakeConfig = .table sfcfg → sfcfg.lookup name = none →
        ConfigGetUint64 snowflakeConfig name = .error (.configNotInclude name)) ∧
      (∀ sfcfg id, snowflakeConfig = .table sfcfg → sfcfg.lookup name = some id →
        (∀ result, id ≠ .int result) →
        ConfigGetUint64 snowflakeConfig name = .error .illegalType) ∧
      (∀ sfcfg result, snowflakeConfig = .table sfcfg →
        sfcfg.lookup name = some (.int result) →
        -(2 : Int) ^ 63 ≤ result → result < (2 : Int) ^ 63 →
        ∃ value, ConfigGetUint64 snowflakeConfig name = .ok value ∧
          value < 2 ^ 64 ∧
          (0 ≤ result → (value : Int) = result) ∧
          (result < 0 → (value : Int) = result + 2 ^ 64)) := by
  refine ⟨?_, ?_, ?_, ?_⟩
  · rintro rfl
    rfl
  · rintro sfcfg rfl hnone
    simp [ConfigGetUint64, hnone]
  · rintro sfcfg id rfl hsome hnot
    cases id with
    | int v => exact absurd rfl (hnot v)
    | int64 v => simp [ConfigGetUint64, hsome]
    | text t => simp [ConfigGetUint64, hsome]
    | flag b => simp [ConfigGetUint64, hsome]
    | null => simp [ConfigGetUint64, hsome]
  · rintro sfcfg result rfl hsome hlo hhi
    refine ⟨(result % (uint64Size : Int)).toNat, by simp [ConfigGetUint64, hsome], ?_, ?_, ?_⟩
    · unfold uint64Size
      omega
    · intro h0
      unfold uint64Size
      omega
    · intro hneg
      unfold uint64Size
      omega

theorem ConfigGetUint64_result_witness :
    ConfigGetUint64 .other "service_id" = .error .configNotLoaded ∧
      ConfigGetUint64 (.table [("data_center_id", .int 3)]) "service_id"
        = .error (.configNotInclude "service_id") ∧
      ConfigGetUint64 (.table [("service_id", .text "5")]) "service_id"
        = .error .illegalType ∧
      ∃ value, ConfigGetUint64 (.table [("service_id", .int 5)]) "service_id" = .ok value ∧
        value < 2 ^ 64 ∧ (0 ≤ (5 : Int) → (value : Int) = 5) ∧
        ((5 : Int) < 0 → (value : Int) = 5 + 2 ^ 64) :=
  ⟨(ConfigGetUint64_result .other "service_id").1 rfl,
    (ConfigGetUint64_result (.table [("data_center_id", .int 3)]) "service_id").2.1
      _ rfl (by decide),
    (ConfigGetUint64_result (.table [("service_id", .text "5")]) "service_id").2.2.1
      _ (.text "5") rfl (by decide) (fun _ h => by cases h),
    (ConfigGetUint64_result (.table [("service_id", .int 5)]) "service_id").2.2.2
      _ 5 rfl (by decide) (by decide) (by decide)⟩

/-- C15, as stated, fails at the widths (0, 0, 0): they are accepted, the
sequence field has all 64 bits, `maximumId` is `uint64(1 << 64) = 0`, and
`curId = 0` is not below it right after construction. -/
theorem NewSnowflakeIdGenerator_curId_not_below_maximumId :
    ∃ g, NewSnowflakeIdGenerator systemStartTime 0 0 0 = .ok g ∧
      g.config.maximumId = 0 ∧ ¬ g.curId < g.config.maximumId :=
  ⟨_, rfl, rfl, by decide⟩

/-- C15, amended. Sequence bound invariant: for every generator returned by
`NewSnowflakeIdGenerator` with accepted widths that are not all zero (so the
sequence field is narrower than 64 bits), `curId < maximumId` holds after
construction and after every sequence of `Generate` calls, whatever their
outcomes; and from any state with `curId < maximumId` one `Generate` call,
successful or failing, ends in a state with `curId < maximumId`. -/
theorem curId_below_maximumId (c : Nat) (t d s : Int) (g : SnowflakeIdGenerator)
    (hnew : NewSnowflakeIdGenerator c t d s = .ok g) (hpos : 0 < t + d + s) :
    g.curId < g.config.maximumId ∧
      (∀ calls, (generateAll g calls).2.curId < (generateAll g calls).2.config.maximumId) ∧
      (∀ sig now stores, sig.config = g.config → sig.curId < sig.config.maximumId →
        (Generate sig now stores).2.curId < (Generate sig now stores).2.config.maximumId) := by
  have hinit : g.curId < g.config.maximumId := by
    obtain ⟨-, -, -, -, rfl⟩ := (NewSnowflakeIdGenerator_ok_iff c t d s g).1 hnew
    show 0 < (if 64 - t - d - s < 64 then 2 ^ (64 - t - d - s).toNat else 0)
    have hlt : 64 - t - d - s < 64 := by omega
    simp [hlt]
  exact ⟨hinit, fun calls => generateAll_keeps_bound calls g hinit,
    fun sig now stores _ h => Generate_keeps_bound sig now stores h⟩

theorem curId_below_maximumId_witness :
    ∃ g, NewSnowflakeIdGenerator systemStartTime 42 5 5 = .ok g ∧
      g.curId < g.config.maximumId ∧
      (generateAll g [(systemStartTime, []), (systemStartTime - 1, []),
          (systemStartTime + 2 ^ 43, [])]).2.curId
        < (generateAll g [(systemStartTime, []), (systemStartTime - 1, []),
          (systemStartTime + 2 ^ 43, [])]).2.config.maximumId := by
  have h := curId_below_maximumId systemStartTime 42 5 5 _ rfl (by decide)
  exact ⟨_, rfl, h.1, h.2.1 _⟩

/-- C17. Sequence stepping: for a reference (42,5,5) generator in any state it
reaches by `Generate` calls, a call that returns an Identity, whose clock
reading equals the stored `curTimestamp` and which does not overflow, returns
an Identity whose sequence field (low 12 bits) is exactly the previous
`curId + 1`; a call that returns an Identity and whose clock reading is
strictly later than `curTimestamp` sets `curTimestamp = now`, `curId = 0` and
returns an Identity whose sequence field is 0. -/
theorem Generate_sequence_stepping (c : Nat) (g sig : SnowflakeIdGenerator)
    (calls : List (Nat × List (Option Nat))) (now : Nat) (stores : List (Option Nat))
    (id : Nat)
    (hnew : NewSnowflakeIdGenerator c 42 5 5 = .ok g)
    (hsig : sig = (generateAll g calls).2)
    (hok : (Generate sig now stores).1 = .ok id) :
    (sig.curTimestamp = now → (sig.curId + 1) % uint64Size < sig.config.maximumId →
        id % 2 ^ 12 = sig.curId + 1 ∧ (Generate sig now stores).2.curId = sig.curId + 1) ∧
      (sig.curTimestamp < now →
        (Generate sig now stores).2.curTimestamp = now ∧
        (Generate sig now stores).2.curId = 0 ∧ id % 2 ^ 12 = 0) := by
  have hgen : g =
      { config :=
          { maximumTimestamp := 2 ^ 42, maximumDataCenterId := 32,
            maximumServiceId := 32, maximumId := 4096, timestampOffset := 27,
            dataCenterIdOffset := 22, serviceIdOffset := 17, idOffset := 12 }
        curTimestamp := c, curId := 0, dataCenterId := 0, serviceId := 0 } := by
    have h : NewSnowflakeIdGenerator c 42 5 5 = .ok _ := rfl
    rw [h] at hnew
    cases hnew
    rfl
  have hg : g.config =
      { maximumTimestamp := 2 ^ 42, maximumDataCenterId := 32, maximumServiceId := 32,
        maximumId := 4096, timestampOffset := 27, dataCenterIdOffset := 22,
        serviceIdOffset := 17, idOffset := 12 } := by rw [hgen]
  have hcfg : sig.config = g.config := by
    rw [hsig]
    exact generateAll_keeps_config calls g
  have hbound : sig.curId < sig.config.maximumId := by
    rw [hsig]
    refine generateAll_keeps_bound calls g ?_
    rw [hgen]
    show (0 : Nat) < 4096
    decide
  have hmax : sig.config.maximumId = 4096 := by rw [hcfg, hg]
  have ho1 : sig.config.timestampOffset = 27 := by rw [hcfg, hg]
  have ho2 : sig.config.dataCenterIdOffset = 22 := by rw [hcfg, hg]
  have ho3 : sig.config.serviceIdOffset = 17 := by rw [hcfg, hg]
  constructor
  · intro heq hlt
    subst heq
    rw [Generate_next_in_millisecond sig stores hlt] at hok ⊢
    dsimp only at hok ⊢
    have hmod : (sig.curId + 1) % uint64Size = sig.curId + 1 :=
      Nat.mod_eq_of_lt (by unfold uint64Size; omega)
    rw [hmod] at hok hlt ⊢
    have hlow := packIdentity_low_bits { sig with curId := sig.curId + 1 } 12 id
      (by show _ ≤ sig.config.timestampOffset; rw [ho1]; decide)
      (by show _ ≤ sig.config.dataCenterIdOffset; rw [ho2]; decide)
      (by show _ ≤ sig.config.serviceIdOffset; rw [ho3]; decide) hok
    refine ⟨?_, rfl⟩
    rw [hlow]
    exact Nat.mod_eq_of_lt (by show sig.curId + 1 < 2 ^ 12; omega)
  · intro hlater
    rw [Generate_new_millisecond sig now stores hlater] at hok ⊢
    dsimp only at hok ⊢
    have hlow := packIdentity_low_bits { sig with curTimestamp := now, curId := 0 } 12 id
      (by show _ ≤ sig.config.timestampOffset; rw [ho1]; decide)
      (by show _ ≤ sig.config.dataCenterIdOffset; rw [ho2]; decide)
      (by show _ ≤ sig.config.serviceIdOffset; rw [ho3]; decide) hok
    exact ⟨rfl, rfl, hlow⟩

theorem Generate_sequence_stepping_witness :
    ∃ g, NewSnowflakeIdGenerator systemStartTime 42 5 5 = .ok g ∧
      (Generate (generateAll g [(systemStartTime, [])]).2 systemStartTime []).1 = .ok 2 ∧
      (2 % 2 ^ 12 = (generateAll g [(systemStartTime, [])]).2.curId + 1 ∧
        (Generate (generateAll g [(systemStartTime, [])]).2 systemStartTime []).2.curId
          = (generateAll g [(systemStartTime, [])]).2.curId + 1) ∧
      (Generate (generateAll g [(systemStartTime, [])]).2 (systemStartTime + 1) []).1
        = .ok (2 ^ 27) ∧
      ((Generate (generateAll g [(systemStartTime, [])]).2 (systemStartTime + 1) []).2.curTimestamp
          = systemStartTime + 1 ∧
        (Generate (generateAll g [(systemStartTime, [])]).2 (systemStartTime + 1) []).2.curId = 0 ∧
        2 ^ 27 % 2 ^ 12 = 0) :=
  ⟨_, rfl, by decide,
    (Generate_sequence_stepping systemStartTime _ _ [(systemStartTime, [])] systemStartTime []
      2 rfl rfl (by decide)).1 (by decide) (by decide),
    by decide,
    (Generate_sequence_stepping systemStartTime _ _ [(systemStartTime, [])]
      (systemStartTime + 1) [] (2 ^ 27) rfl rfl (by decide)).2 (by decide)⟩

/-- C19, as stated, fails when the call enters the overflow busy-wait: a
generator with the accepted widths (54, 5, 5) (`maximumId = 1`) built one
millisecond before the epoch and called at that same reading wraps its
sequence, waits, and when the clock maintenance routine stores the epoch
millisecond it returns the Identity 0, although the clock reading of the call
is earlier than the epoch. -/
theorem Generate_before_epoch_after_wait :
    ∃ g, NewSnowflakeIdGenerator (systemStartTime - 1) 54 5 5 = .ok g ∧
      g.curTimestamp ≤ systemStartTime - 1 ∧ systemStartTime - 1 < systemStartTime ∧
      (Generate g (systemStartTime - 1) [some systemStartTime]).1 = .ok 0 :=
  ⟨_, rfl, by decide, by decide, by decide⟩

/-- C19, amended. Pre-epoch clock: for every generator state with the
configuration of accepted widths and every non-regressing clock reading `now`
earlier than the epoch `systemStartTime`, a `Generate` call that does not enter
the overflow busy-wait returns the error "center clock failure" (the unsigned
subtraction wraps above `maximumTimestamp`), and so does a call whose busy-wait
ends at a millisecond earlier than the epoch; an Identity is returned only by a
call that entered the busy-wait and left it at a millisecond not earlier than
the epoch. -/
theorem Generate_before_epoch (c : Nat) (t d s : Int) (g sig : SnowflakeIdGenerator)
    (now : Nat) (stores : List (Option Nat))
    (hnew : NewSnowflakeIdGenerator c t d s = .ok g) (hcfg : sig.config = g.config)
    (hnr : sig.curTimestamp ≤ now) (hpre : now < systemStartTime) :
    (¬ (sig.curTimestamp = now ∧ sig.config.maximumId ≤ (sig.curId + 1) % uint64Size) →
        (Generate sig now stores).1 = .error .clockFailure) ∧
      (∀ later, waitNextMillisecond now now stores = some later → later < systemStartTime →
        (Generate sig now stores).1 = .error .clockFailure) ∧
      (∀ id, (Generate sig now stores).1 = .ok id →
        (sig.curTimestamp = now ∧ sig.config.maximumId ≤ (sig.curId + 1) % uint64Size) ∧
        ∃ later, waitNextMillisecond now now stores = some later ∧
          systemStartTime ≤ later) := by
  have hmax : sig.config.maximumTimestamp ≤ 2 ^ 63 := by
    rw [hcfg]
    exact maximumTimestamp_le c t d s g hnew
  -- a call that does not wait packs the reading `now`
  have hplain : ¬ (sig.curTimestamp = now ∧
      sig.config.maximumId ≤ (sig.curId + 1) % uint64Size) →
      (Generate sig now stores).1 = .error .clockFailure := by
    intro hnowait
    by_cases heq : sig.curTimestamp = now
    · have hlt : (sig.curId + 1) % uint64Size < sig.config.maximumId := by
        by_contra hge
        exact hnowait ⟨heq, by omega⟩
      subst heq
      rw [Generate_next_in_millisecond sig stores hlt]
      dsimp only
      exact packIdentity_clock_failure { sig with curId := (sig.curId + 1) % uint64Size }
        (sub64_before_epoch sig.curTimestamp sig.config.maximumTimestamp hpre hmax)
    · rw [Generate_new_millisecond sig now stores (by omega)]
      dsimp only
      exact packIdentity_clock_failure { sig with curTimestamp := now, curId := 0 }
        (sub64_before_epoch now sig.config.maximumTimestamp hpre hmax)
  -- a call that waits packs the millisecond the routine stored
  have hwaited : ∀ later, sig.curTimestamp = now →
      sig.config.maximumId ≤ (sig.curId + 1) % uint64Size →
      waitNextMillisecond now now stores = some later → later < systemStartTime →
      (Generate sig now stores).1 = .error .clockFailure := by
    intro later heq hfull hwait hlater
    subst heq
    rw [Generate_after_wait sig stores later hfull hwait]
    dsimp only
    exact packIdentity_clock_failure { sig with curId := 0, curTimestamp := later }
      (sub64_before_epoch later sig.config.maximumTimestamp hlater hmax)
  refine ⟨hplain, ?_, ?_⟩
  · intro later hwait hlater
    by_cases hw : sig.curTimestamp = now ∧
        sig.config.maximumId ≤ (sig.curId + 1) % uint64Size
    · exact hwaited later hw.1 hw.2 hwait hlater
    · exact hplain hw
  · intro id hok
    by_cases hw : sig.curTimestamp = now ∧
        sig.config.maximumId ≤ (sig.curId + 1) % uint64Size
    · refine ⟨hw, ?_⟩
      cases hwait : waitNextMillisecond now now stores with
      | none =>
        exfalso
        have hspin : (Generate sig now stores).1 = .spinning := by
          have h1 : ¬ sig.curTimestamp > now := by omega
          simp [Generate, advance, h1, hw.1, hw.2, hwait]
        rw [hspin] at hok
        cases hok
      | some later =>
        refine ⟨later, rfl, ?_⟩
        by_contra hlt
        rw [hwaited later hw.1 hw.2 hwait (by omega)] at hok
        cases hok
    · rw [hplain hw] at hok
      cases hok

theorem Generate_before_epoch_witness :
    ∃ g, NewSnowflakeIdGenerator (systemStartTime - 5) 42 5 5 = .ok g ∧
      g.curTimestamp ≤ systemStartTime - 2 ∧ systemStartTime - 2 < systemStartTime ∧
      (Generate g (systemStartTime - 2) []).1 = .error .clockFailure :=
  ⟨_, rfl, by decide, by decide,
    (Generate_before_epoch (systemStartTime - 5) 42 5 5 _ _ (systemStartTime - 2) []
      rfl rfl (by decide) (by decide)).1 (by decide)⟩

end IdServer
